import Mathlib

/-
Shallow embedding of the database-backup utilities
(mysql_backup.py, zip_dirs.py, drive_backup.py).

Paths are modelled structurally (absolute flag plus segment list) so that
os.path.join and POSIX resolution of "." segments can be stated exactly.
The local filesystem is a list of files keyed by normalized path; the
remote store is a list of named files with modification times.  External
effects (tar, mysqldump, gzip, os.remove, uploads, remote deletes, log
records, time.sleep) are recorded as an event trace; their success or
failure is driven by oracle functions in a world record, mirroring the
try/except structure of the source.
-/

set_option autoImplicit false

namespace DBBackup

/-- A filesystem path: absolute flag plus a list of name segments. -/
structure Path where
  absolute : Bool
  segs : List String
deriving DecidableEq

/-- POSIX resolution of "." segments, as applied by the OS when a path is
looked up (os.path.isfile, os.remove and friends). -/
def normalize (p : Path) : Path :=
  { absolute := p.absolute, segs := p.segs.filter (fun s => s != ".") }

/-- os.path.join: an absolute second argument discards the first, otherwise
the segment lists are concatenated. -/
def pathJoin (a b : Path) : Path :=
  if b.absolute then b else { absolute := a.absolute, segs := a.segs ++ b.segs }

/-- Render a path as the usual slash-separated string (for log messages). -/
def pathStr (p : Path) : String :=
  (if p.absolute then "/" else "") ++ String.intercalate "/" p.segs

/-- A file on the local filesystem: its normalized path, its modification
time (seconds), and whether os.remove on it succeeds. -/
structure FSFile where
  path : Path
  mtime : Int
  removable : Bool
deriving DecidableEq

/-- If ps = ds ++ [n] for a single extra segment n, return that segment. -/
def under1 : List String → List String → Option String
  | [], [n] => some n
  | d :: ds, p :: ps => if d = p then under1 ds ps else none
  | _, _ => none

/-- Whether the file name n starts with the glob prefix pre. -/
def strStarts (pre n : String) : Bool := pre.data.isPrefixOf n.data

/-- glob.glob on the pattern dir/pre*: the files directly under dir whose
name starts with pre.  Results are spelled the way the pattern is spelled
(unnormalized dir prefix), exactly as glob returns them. -/
def globMatch (fs : List FSFile) (dir : Path) (pre : String) : List Path :=
  fs.filterMap (fun e =>
    if e.path.absolute = dir.absolute then
      match under1 (normalize dir).segs e.path.segs with
      | some n =>
        if strStarts pre n then
          some { absolute := dir.absolute, segs := dir.segs ++ [n] }
        else none
      | none => none
    else none)

/-- Look a path up on the filesystem (after OS resolution of "."). -/
def findAt (fs : List FSFile) (p : Path) : Option FSFile :=
  fs.find? (fun e => decide (e.path = normalize p))

/-- os.path.isfile. -/
def isFile (fs : List FSFile) (p : Path) : Bool := (findAt fs p).isSome

/-- os.path.getmtime (0 when the file is absent; only used behind isFile). -/
def mtimeOf (fs : List FSFile) (p : Path) : Int :=
  match findAt fs p with
  | some e => e.mtime
  | none => 0

/-- Whether os.remove on this path succeeds (true when absent; only used
behind isFile). -/
def removableOf (fs : List FSFile) (p : Path) : Bool :=
  match findAt fs p with
  | some e => e.removable
  | none => true

/-- Remove the listed paths from the filesystem. -/
def removePaths (fs : List FSFile) (l : List Path) : List FSFile :=
  fs.filter (fun e => ! l.any (fun p => decide (normalize p = e.path)))

/-- Retention-sweep selection shared by mysql_backup and zip_dirs as used
by zip_dirs: glob dir/pre*, keep files, and select those whose age against
now - 1 (the 1-second fudge factor) is at least keepdays*86400 seconds.
Skipped entirely for a negative keepdays. -/
def sweepCandidates (fs : List FSFile) (dir : Path) (pre : String)
    (keepdays now : Int) : List Path :=
  if 0 ≤ keepdays then
    (globMatch fs dir pre).filter (fun p =>
      isFile fs p && decide (keepdays * 86400 ≤ now - 1 - mtimeOf fs p))
  else []

/-- Result of the zip_dirs sweep: files removed, and files whose removal
raised OSError (logged and skipped). -/
structure SweepResult where
  deleted : List Path
  failed : List Path
deriving DecidableEq

/-- zip_dirs retention sweep (lines 212-229): each candidate is removed;
an OSError is logged and the loop continues. -/
def zipSweep (fs : List FSFile) (dir : Path) (pre : String)
    (keepdays now : Int) : SweepResult :=
  { deleted := (sweepCandidates fs dir pre keepdays now).filter
      (fun p => removableOf fs p),
    failed := (sweepCandidates fs dir pre keepdays now).filter
      (fun p => ! removableOf fs p) }

/-- mysql_backup retention sweep selection (lines 234-244): the same glob,
but the tested and deleted path is os.path.join(backupdir, file) where file
is a glob result that already carries backupdir. -/
def mysqlSweepPlan (fs : List FSFile) (dir : Path) (pre : String)
    (keepdays now : Int) : List Path :=
  if 0 ≤ keepdays then
    (globMatch fs dir pre).filterMap (fun p =>
      if isFile fs (pathJoin dir p) &&
          decide (keepdays * 86400 ≤ now - 1 - mtimeOf fs (pathJoin dir p)) then
        some (pathJoin dir p)
      else none)
  else []

/-- Delete plan entries in order; mysql_backup has no try/except around
os.remove, so the first failure aborts.  Returns the files removed before
the failure and the failing path, if any. -/
def removeUntilFail (fs : List FSFile) : List Path → List Path × Option Path
  | [] => ([], none)
  | p :: ps =>
    if removableOf fs p then
      let r := removeUntilFail fs ps
      (p :: r.1, r.2)
    else ([], some p)

/-- Observable actions of a run. -/
inductive Event where
  | logInfo (msg : String)
  | logError (msg : String)
  | sleep (secs : Nat)
  | tarAttempt (dir : String)
  | mysqldump (db : String)
  | removeLocal (p : Path)
  | uploadRemote (name : String)
  | deleteRemote (id : Nat)
deriving DecidableEq

/-- The JSON secrets file: a flat key/value association list. -/
abbrev Secrets := List (String × String)

def getKey (s : Secrets) (k : String) : Option String := List.lookup k s

def emailKeys : List String :=
  ["EMAIL_HOST", "EMAIL_USER", "EMAIL_PORT", "EMAIL_USE_TLS",
   "EMAIL_PASS", "EMAIL_FROM_USER"]

/-- The SMTP handler is built exactly when every EMAIL_* secret is present
(the six get_secret calls) and an admin email was supplied. -/
def emailKeysPresent (s : Secrets) : Bool :=
  emailKeys.all (fun k => (getKey s k).isSome)

def secretMsg : String := "Secretfile not found"

def skipMsg (d : String) : String :=
  "directory " ++ d ++ " does not exist. Ignoring"

/-- directory.replace(os.path.sep, underscore); os.path.sep is the single
character slash, so the replacement is character-wise. -/
def sanitize (d : String) : String :=
  String.mk (d.data.map (fun c => if c = '/' then '_' else c))

/-- Stand-in for the ISO timestamp rendered into backup file names. -/
def timeStr (t : Int) : String := toString t

/-- database.upper() for the ASCII database names used in secret keys. -/
def upperChar (c : Char) : Char :=
  if 97 ≤ c.toNat ∧ c.toNat ≤ 122 then Char.ofNat (c.toNat - 32) else c

def strUpper (s : String) : String := String.mk (s.data.map upperChar)

/-- Log records produced by the shared email-setup preamble: info when the
keys are present but no admin email was given; for drive_backup the
get_secret helper itself logs the missing key before raising (the
ImproperlyConfigured exception is then swallowed). -/
def emailPreEvents (s : Secrets) (adminemail : String) (logMissing : Bool) :
    List Event :=
  if emailKeysPresent s then
    if adminemail = "" then
      [Event.logInfo "No admin email specified using --email argument, no email logging enabled."]
    else []
  else if logMissing then
    [Event.logError "Set the EMAIL setting in the secret file"]
  else []

def testlogEvents : List Event :=
  [Event.logInfo "Test of logging capabilities for info messages",
   Event.logError "Test of logging capabilities for error messages"]

/-! ## zip_dirs -/

/-- Oracles for zip_dirs: which target directories exist, whether each tar
invocation (per directory and attempt number) succeeds, whether mkdir of
the Current directory and os.link succeed, and the current time. -/
structure ZipWorld where
  existingDirs : List String
  tarOk : String → Nat → Bool
  mkdirOk : Bool
  linkOk : Bool
  now : Int

structure ZipArgs where
  backupdir : Path
  keepdays : Int
  secret : Option Secrets
  adminemail : String
  testlog : Bool
  directories : List String

/-- Mutable state of a zip_dirs run: the local filesystem, and whether the
backupdir/Current entry exists and is a directory. -/
structure ZipState where
  fs : List FSFile
  curExists : Bool
  curIsDir : Bool

/-- Log records of the zip_dirs retention sweep, in candidate order: a
removal per deleted file, and (in the modelled non-verbose run) the
logger.error record of lines 227-228 for each file whose os.remove
raised. -/
def zipSweepEvents (fs : List FSFile) (dir : Path) (pre : String)
    (keepdays now : Int) : List Event :=
  (sweepCandidates fs dir pre keepdays now).map (fun p =>
    if removableOf fs p then Event.removeLocal p
    else Event.logError ("Unable to remove file " ++ pathStr p))

/-- Body of the zip_dirs target loop after a successful tar (zip_dirs
lines 212-282): retention sweep, log record, and the Current-directory
bookkeeping.  chmod failures are log-only in the source and are not
modelled.  Returns events, the new state, and an early-return code. -/
def zipAfterTar (w : ZipWorld) (a : ZipArgs) (st : ZipState) (d : String)
    (tarEv : List Event) : List Event × ZipState × Option Int :=
  let root := sanitize d
  let bfName := root ++ "." ++ timeStr w.now ++ ".tgz"
  let fs1 := st.fs ++
    [{ path := normalize { absolute := a.backupdir.absolute,
                           segs := a.backupdir.segs ++ [bfName] },
       mtime := w.now, removable := true }]
  let sweepEv := zipSweepEvents fs1 a.backupdir root a.keepdays w.now
  let fs2 := removePaths fs1 (zipSweep fs1 a.backupdir root a.keepdays w.now).deleted
  let infoEv := Event.logInfo ("deleted old files and tarred and gzipped " ++ d)
  let curPath : Path :=
    { absolute := a.backupdir.absolute, segs := a.backupdir.segs ++ ["Current"] }
  if st.curExists = false then
    if w.mkdirOk then
      (tarEv ++ sweepEv ++ [infoEv],
       { fs := fs2, curExists := true, curIsDir := true }, none)
    else
      (tarEv ++ sweepEv ++
         [infoEv, Event.logError ("unable to create " ++ pathStr curPath ++ " directory")],
       { st with fs := fs2 }, some (-1))
  else if st.curIsDir = false then
    (tarEv ++ sweepEv ++
       [infoEv,
        Event.logError ("unable to create " ++ pathStr curPath ++
          " directory it already exists as a file")],
     { st with fs := fs2 }, some (-1))
  else
    let curPlan := (globMatch fs2 curPath root).filterMap (fun p =>
      if isFile fs2 (pathJoin curPath p) then some (pathJoin curPath p) else none)
    let curEv := curPlan.map (fun p =>
      if removableOf fs2 p then Event.removeLocal p
      else Event.logError ("Unable to remove current backup file " ++ pathStr p))
    let fs3 := removePaths fs2 (curPlan.filter (fun p => removableOf fs2 p))
    let linkTarget : Path :=
      { absolute := curPath.absolute, segs := curPath.segs ++ [bfName] }
    if w.linkOk then
      (tarEv ++ sweepEv ++ [infoEv] ++ curEv,
       { fs := fs3 ++ [{ path := normalize linkTarget, mtime := w.now,
                         removable := true }],
         curExists := true, curIsDir := true }, none)
    else
      (tarEv ++ sweepEv ++ [infoEv] ++ curEv ++
         [Event.logError ("Unable to create link to current backup file " ++
            pathStr linkTarget)],
       { st with fs := fs3 }, none)

/-- One iteration of the zip_dirs target loop (lines 189-287): skip (with an
info record) a directory that does not exist; otherwise tar with one retry
after a 5-second sleep, and on a second failure log and continue. -/
def zipTarget (w : ZipWorld) (a : ZipArgs) (st : ZipState) (d : String) :
    List Event × ZipState × Option Int :=
  if d ∈ w.existingDirs then
    if w.tarOk d 1 then
      zipAfterTar w a st d [Event.tarAttempt d]
    else if w.tarOk d 2 then
      zipAfterTar w a st d
        [Event.tarAttempt d, Event.sleep 5, Event.tarAttempt d]
    else
      ([Event.tarAttempt d, Event.sleep 5, Event.tarAttempt d,
        Event.logError ("unable to tar directory=" ++ d)], st, none)
  else
    ([Event.logInfo (skipMsg d)], st, none)

/-- The zip_dirs target loop: sequential, with the early-return codes of
the Current-directory handling ending the run. -/
def zipProcess (w : ZipWorld) (a : ZipArgs) : List String → ZipState → List Event × Int
  | [], _ => ([], 0)
  | d :: rest, st =>
    let r := zipTarget w a st d
    match r.2.2 with
    | some c => (r.1, c)
    | none =>
      let t := zipProcess w a rest r.2.1
      (r.1 ++ t.1, t.2)

/-- zip_dirs entry point (result of main): missing secrets file returns -1
before any target is touched; testlog short-circuits the loop. -/
def zipRun (w : ZipWorld) (a : ZipArgs) (st0 : ZipState) : List Event × Int :=
  match a.secret with
  | none => ([Event.logError secretMsg], -1)
  | some s =>
    let pre := emailPreEvents s a.adminemail false
    if a.testlog then (pre ++ testlogEvents, 0)
    else
      let r := zipProcess w a a.directories st0
      (pre ++ r.1, r.2)

/-! ## mysql_backup -/

structure MysqlWorld where
  dumpOk : String → Bool
  gzipOk : String → Bool
  now : Int

structure MysqlArgs where
  backupdir : Path
  keepdays : Int
  secret : Option Secrets
  adminemail : String
  testlog : Bool
  databases : List String

/-- One iteration of the mysql_backup database loop (lines 197-244).
A missing DB_USER or DB_PASS secret raises ImproperlyConfigured, which is
not caught in the loop and makes main return 2.  open() creates the dump
file before mysqldump runs; gzip replaces it by the .gz file.  The sweep
deletes with a bare os.remove: an OSError propagates and main returns 2. -/
def mysqlTarget (w : MysqlWorld) (a : MysqlArgs) (s : Secrets)
    (fs : List FSFile) (db : String) : List Event × List FSFile × Option Int :=
  match getKey s (strUpper db ++ "_DB_USER"), getKey s (strUpper db ++ "_DB_PASS") with
  | some _, some _ =>
    let bfName := db ++ "." ++ timeStr w.now ++ ".sql"
    let bfRaw : Path :=
      { absolute := a.backupdir.absolute, segs := a.backupdir.segs ++ [bfName] }
    let fs1 := fs ++ [{ path := normalize bfRaw, mtime := w.now, removable := true }]
    if w.dumpOk db then
      if w.gzipOk db then
        let gzRaw : Path :=
          { absolute := a.backupdir.absolute,
            segs := a.backupdir.segs ++ [bfName ++ ".gz"] }
        let fs2 := removePaths fs1 [bfRaw] ++
          [{ path := normalize gzRaw, mtime := w.now, removable := true }]
        let ev0 := [Event.mysqldump db,
                    Event.logInfo ("backed up and gzipped " ++ db)]
        if 0 ≤ a.keepdays then
          let plan := mysqlSweepPlan fs2 a.backupdir db a.keepdays w.now
          let r := removeUntilFail fs2 plan
          let fs3 := removePaths fs2 r.1
          match r.2 with
          | some _ => (ev0 ++ r.1.map Event.removeLocal, fs3, some 2)
          | none => (ev0 ++ r.1.map Event.removeLocal, fs3, none)
        else (ev0, fs2, none)
      else
        ([Event.mysqldump db, Event.logError ("unable to gzip file=" ++ bfName)],
         fs1, none)
    else
      ([Event.mysqldump db, Event.logError ("database=" ++ db ++ " dump failed")],
       fs1, none)
  | _, _ => ([], fs, some 2)

def mysqlProcess (w : MysqlWorld) (a : MysqlArgs) (s : Secrets) :
    List String → List FSFile → List Event × Int
  | [], _ => ([], 0)
  | db :: rest, fs =>
    let r := mysqlTarget w a s fs db
    match r.2.2 with
    | some c => (r.1, c)
    | none =>
      let t := mysqlProcess w a s rest r.2.1
      (r.1 ++ t.1, t.2)

/-- mysql_backup entry point (result of main). -/
def mysqlRun (w : MysqlWorld) (a : MysqlArgs) (fs0 : List FSFile) :
    List Event × Int :=
  match a.secret with
  | none => ([Event.logError secretMsg], -1)
  | some s =>
    let pre := emailPreEvents s a.adminemail false
    if a.testlog then (pre ++ testlogEvents, 0)
    else
      let r := mysqlProcess w a s a.databases fs0
      (pre ++ r.1, r.2)

/-! ## drive_backup -/

/-- A file in the remote (Google Drive) store. -/
structure RFile where
  id : Nat
  name : String
  mtime : Int
deriving DecidableEq

/-- Whether sub occurs as a contiguous run inside l. -/
def subIn (sub : List Char) : List Char → Bool
  | [] => sub.isEmpty
  | c :: cs => sub.isPrefixOf (c :: cs) || subIn sub cs

/-- The Drive query operator: name contains q. -/
def strContains (s q : String) : Bool := subIn q.data s.data

/-- The old-file query issued after each upload (drive_backup line 359):
name contains q and modifiedTime strictly before the timestamp t captured
at the start of this target iteration. -/
def driveQueryMatches (q : String) (t : Int) (f : RFile) : Bool :=
  strContains f.name q && decide (f.mtime < t)

structure DriveWorld where
  existingDirs : List String
  tarOk : String → Bool
  uploadOk : String → Bool
  deleteOk : Nat → Bool

structure DriveArgs where
  secret : Option Secrets
  adminemail : String
  testlog : Bool
  directories : List String

/-- State of a drive_backup run: the remote store, the next fresh file id,
and the clock (each target iteration captures utcnow as its tick and is
assigned strictly increasing times). -/
structure DriveState where
  store : List RFile
  nextId : Nat
  tick : Int
deriving DecidableEq

/-- One iteration of the drive_backup directory loop (lines 331-365):
tar to /tmp (no retry; on failure log and continue), upload the archive
(an upload failure is logged but the cleanup still runs), then list and
delete remote files whose name contains /tmp/root and whose modification
time predates this iteration's timestamp.  A remote delete failure is
skipped, and in the modelled non-verbose run it leaves no record at all:
in delete_file (lines 175-179) both the stdout write and the logger.error
sit under the verbose flag, while a successful delete is logged
unconditionally (our deleteRemote event).  The local rm of the /tmp
archives has no bearing on the remote store and is not modelled. -/
def driveTarget (w : DriveWorld) (st : DriveState) (d : String) :
    List Event × DriveState :=
  if d ∈ w.existingDirs then
    let root := sanitize d
    let t := st.tick
    let bf := "/tmp/" ++ root ++ "." ++ timeStr t ++ ".gz"
    if w.tarOk d then
      let upEv := if w.uploadOk bf then [Event.uploadRemote bf]
                  else [Event.logError ("Unable to upload file " ++ bf)]
      let store1 := if w.uploadOk bf then
          st.store ++ [{ id := st.nextId, name := bf, mtime := t }]
        else st.store
      let nid1 := if w.uploadOk bf then st.nextId + 1 else st.nextId
      let q := "/tmp/" ++ root
      let old := store1.filter (fun f => driveQueryMatches q t f)
      let delEv := (old.filter (fun f => w.deleteOk f.id)).map
        (fun f => Event.deleteRemote f.id)
      let store2 := store1.filter (fun f =>
        ! (driveQueryMatches q t f && w.deleteOk f.id))
      (Event.tarAttempt d :: (upEv ++ delEv),
       { store := store2, nextId := nid1, tick := t + 1 })
    else
      ([Event.tarAttempt d, Event.logError ("unable to tar directory=" ++ d)],
       { st with tick := t + 1 })
  else ([Event.logInfo (skipMsg d)], st)

def driveLoop (w : DriveWorld) : List String → DriveState → List Event × DriveState
  | [], st => ([], st)
  | d :: rest, st =>
    let r := driveTarget w st d
    let t := driveLoop w rest r.2
    (r.1 ++ t.1, t.2)

/-- drive_backup entry point (result of main).  After the loop the code
unconditionally calls smtpHandler.setLevel: when no handler was built (no
admin email, or a missing EMAIL_* secret) this raises NameError, which
main turns into exit code 2. -/
def driveRun (w : DriveWorld) (a : DriveArgs) (st0 : DriveState) :
    List Event × Int × List RFile :=
  match a.secret with
  | none => ([Event.logError secretMsg], -1, st0.store)
  | some s =>
    let pre := emailPreEvents s a.adminemail true
    if a.testlog then (pre ++ testlogEvents, 0, st0.store)
    else
      let r := driveLoop w a.directories st0
      if emailKeysPresent s && (a.adminemail != "") then
        (pre ++ r.1 ++
           [Event.logInfo "Uploaded the directories to Google Drive"],
         0, r.2.store)
      else (pre ++ r.1, 2, r.2.store)

/-! ## Concrete run configurations used by counterexamples and witnesses -/

/-- A secrets file carrying all six EMAIL_* keys. -/
def fullSecrets : Secrets :=
  [("EMAIL_HOST", "smtp.example.com"), ("EMAIL_USER", "u"),
   ("EMAIL_PORT", "587"), ("EMAIL_USE_TLS", "True"),
   ("EMAIL_PASS", "pw"), ("EMAIL_FROM_USER", "f")]

/-- A secrets file missing EMAIL_HOST (the other five keys present). -/
def noHostSecrets : Secrets :=
  [("EMAIL_USER", "u"), ("EMAIL_PORT", "587"), ("EMAIL_USE_TLS", "True"),
   ("EMAIL_PASS", "pw"), ("EMAIL_FROM_USER", "f")]

def emptyDriveState : DriveState := { store := [], nextId := 0, tick := 0 }

/-- Two directories whose sanitized names overlap: a/b becomes a_b, whose
uploaded name contains the query string /tmp/a used for target a. -/
def overlapWorld : DriveWorld :=
  { existingDirs := ["a/b", "a"], tarOk := fun _ => true,
    uploadOk := fun _ => true, deleteOk := fun _ => true }

def overlapArgs : DriveArgs :=
  { secret := some fullSecrets, adminemail := "admin@example.com",
    testlog := false, directories := ["a/b", "a"] }

/-- drive_backup run with EMAIL_HOST missing and one existing target. -/
def noHostWorld : DriveWorld :=
  { existingDirs := ["data"], tarOk := fun _ => true,
    uploadOk := fun _ => true, deleteOk := fun _ => true }

def noHostArgs : DriveArgs :=
  { secret := some noHostSecrets, adminemail := "admin@example.com",
    testlog := false, directories := ["data"] }

/-- mysql_backup run whose sweep hits a file os.remove cannot delete. -/
def stuckWorld : MysqlWorld :=
  { dumpOk := fun _ => true, gzipOk := fun _ => true, now := 200000 }

def stuckSecrets : Secrets :=
  [("DB1_DB_USER", "u1"), ("DB1_DB_PASS", "p1"),
   ("DB2_DB_USER", "u2"), ("DB2_DB_PASS", "p2")]

def stuckArgs : MysqlArgs :=
  { backupdir := { absolute := true, segs := ["b"] }, keepdays := 1,
    secret := some stuckSecrets, adminemail := "", testlog := false,
    databases := ["db1", "db2"] }

def stuckFs : List FSFile :=
  [{ path := { absolute := true, segs := ["b", "db1.0.sql.gz"] },
     mtime := 0, removable := false }]

/-- A one-day-old backup file in the absolute directory /b. -/
def dayDir : Path := { absolute := true, segs := ["b"] }

/-- A sweep scenario with one stuck and one removable stale file. -/
def mixBad : Path := { absolute := true, segs := ["b", "db.a.sql.gz"] }

def mixGood : Path := { absolute := true, segs := ["b", "db.b.sql.gz"] }

def mixFs : List FSFile :=
  [{ path := mixBad, mtime := 0, removable := false },
   { path := mixGood, mtime := 0, removable := true }]

def dayFile : FSFile :=
  { path := { absolute := true, segs := ["b", "db.x.sql.gz"] },
    mtime := 86499, removable := true }

/-- A stale backup file under the relative directory backups. -/
def relDir : Path := { absolute := false, segs := ["backups"] }

def relFs : List FSFile :=
  [{ path := { absolute := false, segs := ["backups", "db1.old.sql.gz"] },
     mtime := 0, removable := true }]

/-- zip_dirs run whose tar fails on both attempts for directory data. -/
def failTarWorld : ZipWorld :=
  { existingDirs := ["data"], tarOk := fun _ _ => false,
    mkdirOk := true, linkOk := true, now := 100 }

def plainZipArgs : ZipArgs :=
  { backupdir := { absolute := true, segs := ["b"] }, keepdays := -1,
    secret := some fullSecrets, adminemail := "", testlog := false,
    directories := ["data", "other"] }

def plainZipState : ZipState := { fs := [], curExists := true, curIsDir := true }

/-- zip_dirs / drive_backup worlds where directory gone is absent. -/
def missWorld : ZipWorld :=
  { existingDirs := ["here"], tarOk := fun _ _ => true,
    mkdirOk := true, linkOk := true, now := 100 }

def missDriveWorld : DriveWorld :=
  { existingDirs := ["here"], tarOk := fun _ => true,
    uploadOk := fun _ => true, deleteOk := fun _ => true }

/-- Worlds and arguments for the missing-secrets-file runs. -/
def anyMysqlWorld : MysqlWorld :=
  { dumpOk := fun _ => true, gzipOk := fun _ => true, now := 0 }

def noSecretMysqlArgs : MysqlArgs :=
  { backupdir := { absolute := true, segs := ["b"] }, keepdays := 0,
    secret := none, adminemail := "", testlog := false, databases := ["db1"] }

def noSecretZipArgs : ZipArgs :=
  { backupdir := { absolute := true, segs := ["b"] }, keepdays := 0,
    secret := none, adminemail := "", testlog := false, directories := ["data"] }

def noSecretDriveArgs : DriveArgs :=
  { secret := none, adminemail := "", testlog := false, directories := ["data"] }

/-- drive_backup run with every key present but no admin email. -/
def noAdminArgs : DriveArgs :=
  { secret := some fullSecrets, adminemail := "", testlog := false,
    directories := ["data"] }

/-- A remote store entry that the query matches but deletion cannot remove. -/
def stuckRemote : RFile := { id := 7, name := "/tmp/data.old.gz", mtime := -5 }

def stuckRemoteWorld : DriveWorld :=
  { existingDirs := ["data"], tarOk := fun _ => true,
    uploadOk := fun _ => true, deleteOk := fun i => ! (i == 7) }

def stuckRemoteState : DriveState :=
  { store := [stuckRemote], nextId := 0, tick := 0 }

/-! ## Basic lemmas about the path and filesystem model -/

theorem under1_eq_some (ds ps : List String) (n : String) :
    under1 ds ps = some n ↔ ps = ds ++ [n] := by
  induction ds generalizing ps with
  | nil =>
    match ps with
    | [] => simp [under1]
    | [p] => simp [under1]
    | p :: q :: t => simp [under1]
  | cons d ds ih =>
    match ps with
    | [] => simp [under1]
    | p :: ps =>
      by_cases h : d = p
      · subst h
        simp [under1, ih]
      · simp only [under1, if_neg h, List.cons_append, List.cons.injEq]
        constructor
        · intro hc
          exact Option.noConfusion hc
        · intro hc
          exact absurd hc.1.symm h

theorem mem_globMatch (fs : List FSFile) (dir : Path) (pre : String) (p : Path) :
    p ∈ globMatch fs dir pre ↔
      ∃ e ∈ fs, ∃ n, e.path.absolute = dir.absolute ∧
        e.path.segs = (normalize dir).segs ++ [n] ∧ strStarts pre n = true ∧
        p = { absolute := dir.absolute, segs := dir.segs ++ [n] } := by
  unfold globMatch
  rw [List.mem_filterMap]
  constructor
  · rintro ⟨e, he, hf⟩
    by_cases hab : e.path.absolute = dir.absolute
    · rw [if_pos hab] at hf
      cases hu : under1 (normalize dir).segs e.path.segs with
      | none => rw [hu] at hf; exact Option.noConfusion hf
      | some n =>
        rw [hu] at hf
        have hf2 : (if strStarts pre n = true then
            some ({ absolute := dir.absolute, segs := dir.segs ++ [n] } : Path)
          else none) = some p := hf
        by_cases hpre : strStarts pre n = true
        · rw [if_pos hpre] at hf2
          refine ⟨e, he, n, hab, (under1_eq_some _ _ _).mp hu, hpre, ?_⟩
          injection hf2 with h
          exact h.symm
        · rw [if_neg hpre] at hf2
          exact Option.noConfusion hf2
    · rw [if_neg hab] at hf
      exact Option.noConfusion hf
  · rintro ⟨e, he, n, hab, hsg, hpre, hp⟩
    refine ⟨e, he, ?_⟩
    rw [if_pos hab, (under1_eq_some (normalize dir).segs e.path.segs n).mpr hsg]
    show (if strStarts pre n = true then
        some ({ absolute := dir.absolute, segs := dir.segs ++ [n] } : Path)
      else none) = some p
    rw [if_pos hpre, hp]

theorem findAt_eq_some (fs : List FSFile) (p : Path) (e : FSFile)
    (hp : e.path = normalize p) :
    (fs.map FSFile.path).Nodup → e ∈ fs → findAt fs p = some e := by
  induction fs with
  | nil =>
    intro _ he
    exact absurd he (List.not_mem_nil e)
  | cons x xs ih =>
    intro hnd he
    rw [List.map_cons, List.nodup_cons] at hnd
    rcases List.mem_cons.mp he with rfl | hx
    · unfold findAt
      rw [List.find?_cons_of_pos]
      simp [hp]
    · have hxp : ¬ (x.path = normalize p) := by
        intro hcontra
        refine hnd.1 ?_
        rw [hcontra, ← hp]
        exact List.mem_map_of_mem FSFile.path hx
      unfold findAt
      rw [List.find?_cons_of_neg]
      · exact ih hnd.2 hx
      · simp [hxp]

theorem findAt_eq_none (fs : List FSFile) (p : Path)
    (h : ∀ e ∈ fs, e.path ≠ normalize p) : findAt fs p = none := by
  rw [findAt, List.find?_eq_none]
  intro e he
  simp [h e he]

theorem normalize_extend (b : Bool) (l : List String) (n : String) (hn : n ≠ ".") :
    normalize { absolute := b, segs := l ++ [n] } =
      { absolute := b, segs := l.filter (fun s => s != ".") ++ [n] } := by
  simp [normalize, List.filter_append, hn]

/-- A file directly under dir resolves to the glob result spelled with the
unnormalized dir prefix. -/
theorem glob_path_resolves (dir : Path) (e : FSFile) (n : String)
    (hab : e.path.absolute = dir.absolute)
    (hsg : e.path.segs = (normalize dir).segs ++ [n]) (hn : n ≠ ".") :
    e.path = normalize { absolute := dir.absolute, segs := dir.segs ++ [n] } := by
  rw [normalize_extend dir.absolute dir.segs n hn]
  have h1 : e.path = { absolute := e.path.absolute, segs := e.path.segs } := rfl
  rw [h1, hab, hsg]
  rfl

/-- Membership in the deleted list of the zip_dirs sweep, for a removable
file sitting directly under the backup directory. -/
theorem mem_zipSweep_deleted (fs : List FSFile) (dir : Path) (pre : String)
    (k now : Int) (e : FSFile) (n : String)
    (hk : 0 ≤ k) (hnd : (fs.map FSFile.path).Nodup) (he : e ∈ fs)
    (hab : e.path.absolute = dir.absolute)
    (hsg : e.path.segs = (normalize dir).segs ++ [n]) (hn : n ≠ ".")
    (hpre : strStarts pre n = true) (hrm : e.removable = true) :
    (({ absolute := dir.absolute, segs := dir.segs ++ [n] } : Path) ∈
        (zipSweep fs dir pre k now).deleted ↔
      k * 86400 ≤ now - 1 - e.mtime) := by
  have hep : e.path =
      normalize { absolute := dir.absolute, segs := dir.segs ++ [n] } :=
    glob_path_resolves dir e n hab hsg hn
  have hfind : findAt fs { absolute := dir.absolute, segs := dir.segs ++ [n] } =
      some e := findAt_eq_some fs _ e hep hnd he
  have hglob : ({ absolute := dir.absolute, segs := dir.segs ++ [n] } : Path) ∈
      globMatch fs dir pre :=
    (mem_globMatch fs dir pre _).mpr ⟨e, he, n, hab, hsg, hpre, rfl⟩
  simp [zipSweep, sweepCandidates, if_pos hk, List.mem_filter, hglob,
    isFile, mtimeOf, removableOf, hfind, hrm]

/-- Membership in the mysql_backup sweep selection when the backup directory
is absolute (so os.path.join collapses the doubled prefix). -/
theorem mem_mysqlSweepPlan_abs (fs : List FSFile) (dir : Path) (pre : String)
    (k now : Int) (e : FSFile) (n : String)
    (habs : dir.absolute = true)
    (hk : 0 ≤ k) (hnd : (fs.map FSFile.path).Nodup) (he : e ∈ fs)
    (hab : e.path.absolute = dir.absolute)
    (hsg : e.path.segs = (normalize dir).segs ++ [n]) (hn : n ≠ ".")
    (hpre : strStarts pre n = true) :
    (({ absolute := dir.absolute, segs := dir.segs ++ [n] } : Path) ∈
        mysqlSweepPlan fs dir pre k now ↔
      k * 86400 ≤ now - 1 - e.mtime) := by
  have hep : e.path =
      normalize { absolute := dir.absolute, segs := dir.segs ++ [n] } :=
    glob_path_resolves dir e n hab hsg hn
  have hfind : findAt fs { absolute := dir.absolute, segs := dir.segs ++ [n] } =
      some e := findAt_eq_some fs _ e hep hnd he
  have hjoin : ∀ q : Path, q.absolute = true → pathJoin dir q = q := by
    intro q hq
    simp [pathJoin, hq]
  rw [mysqlSweepPlan, if_pos hk]
  rw [List.mem_filterMap]
  constructor
  · rintro ⟨q, hq, hfq⟩
    rcases (mem_globMatch fs dir pre q).mp hq with ⟨e2, _, m, _, _, _, hqform⟩
    have hqabs : q.absolute = true := by rw [hqform, habs]
    rw [hjoin q hqabs] at hfq
    by_cases hcond : (isFile fs q &&
        decide (k * 86400 ≤ now - 1 - mtimeOf fs q)) = true
    · rw [if_pos hcond] at hfq
      injection hfq with hqp
      rw [hqp] at hcond
      rw [Bool.and_eq_true] at hcond
      have hle := of_decide_eq_true hcond.2
      simpa [mtimeOf, hfind] using hle
    · rw [if_neg hcond] at hfq
      exact Option.noConfusion hfq
  · intro hage
    have hglob : ({ absolute := dir.absolute, segs := dir.segs ++ [n] } : Path) ∈
        globMatch fs dir pre :=
      (mem_globMatch fs dir pre _).mpr ⟨e, he, n, hab, hsg, hpre, rfl⟩
    refine ⟨{ absolute := dir.absolute, segs := dir.segs ++ [n] }, hglob, ?_⟩
    rw [hjoin { absolute := dir.absolute, segs := dir.segs ++ [n] } habs]
    have hcond : (isFile fs { absolute := dir.absolute, segs := dir.segs ++ [n] } &&
        decide (k * 86400 ≤ now - 1 -
          mtimeOf fs { absolute := dir.absolute, segs := dir.segs ++ [n] })) = true := by
      rw [Bool.and_eq_true]
      refine ⟨by simp [isFile, hfind], ?_⟩
      apply decide_eq_true
      simp only [mtimeOf, hfind]
      exact hage
    rw [if_pos hcond]

/-! ## Claims -/

/-- Claim C1: for every retention threshold N ≥ 0 days, a prefix-matching
file directly under the backup directory is deleted by the local retention
sweep if and only if (now - 1) - mtime ≥ N*86400 (so a file whose age is
exactly N*86400 - 1 seconds is retained, and one whose age passes the bound
once the 1-second fudge is applied is deleted).  Stated for the zip_dirs
sweep as written, and for the mysql_backup sweep whenever the backup
directory is absolute, where os.path.join collapses the doubled prefix. -/
theorem claim_c1_retention_boundary (fs : List FSFile) (dir : Path)
    (pre : String) (k now : Int) (e : FSFile) (n : String)
    (hk : 0 ≤ k) (hnd : (fs.map FSFile.path).Nodup) (he : e ∈ fs)
    (hab : e.path.absolute = dir.absolute)
    (hsg : e.path.segs = (normalize dir).segs ++ [n]) (hn : n ≠ ".")
    (hpre : strStarts pre n = true) (hrm : e.removable = true) :
    (({ absolute := dir.absolute, segs := dir.segs ++ [n] } : Path) ∈
        (zipSweep fs dir pre k now).deleted ↔
      k * 86400 ≤ now - 1 - e.mtime) ∧
    (dir.absolute = true →
      (({ absolute := dir.absolute, segs := dir.segs ++ [n] } : Path) ∈
          mysqlSweepPlan fs dir pre k now ↔
        k * 86400 ≤ now - 1 - e.mtime)) := by
  refine ⟨mem_zipSweep_deleted fs dir pre k now e n hk hnd he hab hsg hn hpre hrm,
    fun habs => mem_mysqlSweepPlan_abs fs dir pre k now e n habs hk hnd he hab hsg hn hpre⟩

/-- Witness for C1 at threshold 1 day: a file of age 86401 seconds in the
absolute directory /b, where the deletion condition holds with equality. -/
theorem claim_c1_witness :
    (({ absolute := dayDir.absolute, segs := dayDir.segs ++ ["db.x.sql.gz"] } : Path) ∈
        (zipSweep [dayFile] dayDir "db" 1 172900).deleted ↔
      1 * 86400 ≤ 172900 - 1 - dayFile.mtime) ∧
    (dayDir.absolute = true →
      (({ absolute := dayDir.absolute, segs := dayDir.segs ++ ["db.x.sql.gz"] } : Path) ∈
          mysqlSweepPlan [dayFile] dayDir "db" 1 172900 ↔
        1 * 86400 ≤ 172900 - 1 - dayFile.mtime)) :=
  claim_c1_retention_boundary [dayFile] dayDir "db" 1 172900 dayFile "db.x.sql.gz"
    (by decide) (by decide) (by decide) (by decide) (by decide) (by decide)
    (by decide) (by decide)

/-- Claim C6: a negative keepdays (the default -1) skips the retention sweep
entirely in both tools: no candidates are selected and nothing is deleted,
for any filesystem contents and any file ages. -/
theorem claim_c6_negative_keepdays (fs : List FSFile) (dir : Path)
    (pre : String) (k now : Int) (hk : k < 0) :
    zipSweep fs dir pre k now = { deleted := [], failed := [] } ∧
    mysqlSweepPlan fs dir pre k now = [] ∧
    sweepCandidates fs dir pre k now = [] := by
  have h : ¬ (0 ≤ k) := not_le.mpr hk
  refine ⟨?_, ?_, ?_⟩
  · simp [zipSweep, sweepCandidates, h]
  · simp [mysqlSweepPlan, h]
  · simp [sweepCandidates, h]

/-- Witness for C6: threshold -1 on a directory holding an arbitrarily old
file. -/
theorem claim_c6_witness :
    zipSweep relFs relDir "db1" (-1) 1000000 = { deleted := [], failed := [] } ∧
    mysqlSweepPlan relFs relDir "db1" (-1) 1000000 = [] ∧
    sweepCandidates relFs relDir "db1" (-1) 1000000 = [] :=
  claim_c6_negative_keepdays relFs relDir "db1" (-1) 1000000 (by decide)

/-- Claim C10: in the mysql_backup retention sweep the deleted path is
os.path.join(backupdir, file) applied to glob results that already begin
with backupdir; for a relative backup directory other than "." the doubled
path is not a file, so the sweep selects nothing regardless of file ages.
The hypotheses say the directory is relative with at least one real
segment (which excludes "." and the empty string) and that the filesystem
has no entry under the doubled prefix. -/
theorem claim_c10_mysql_path_doubling (fs : List FSFile) (dir : Path)
    (pre : String) (k now : Int)
    (hrel : dir.absolute = false)
    (hne : (normalize dir).segs ≠ [])
    (hnorm : ∀ e ∈ fs, "." ∉ e.path.segs)
    (hdbl : ∀ e ∈ fs,
      ¬ ((normalize dir).segs ++ (normalize dir).segs) <+: e.path.segs) :
    mysqlSweepPlan fs dir pre k now = [] := by
  by_cases hk : (0:Int) ≤ k
  case neg => simp [mysqlSweepPlan, hk]
  case pos =>
    rw [mysqlSweepPlan, if_pos hk]
    rw [List.filterMap_eq_nil_iff]
    intro q hq
    rcases (mem_globMatch fs dir pre q).mp hq with ⟨e, he, m, hab, hsg, hpre, hqform⟩
    have hm : m ≠ "." := by
      intro hm
      apply hnorm e he
      rw [hsg, hm]
      exact List.mem_append_right _ (List.mem_singleton.mpr rfl)
    have hqabs : q.absolute = false := by rw [hqform]; exact hrel
    have hjoin : pathJoin dir q =
        { absolute := dir.absolute, segs := dir.segs ++ q.segs } := by
      simp [pathJoin, hqabs]
    have hdnorm : normalize (pathJoin dir q) =
        { absolute := dir.absolute,
          segs := (normalize dir).segs ++ ((normalize dir).segs ++ [m]) } := by
      rw [hjoin, hqform]
      simp [normalize, List.filter_append, hm]
    have hnof : isFile fs (pathJoin dir q) = false := by
      rw [isFile, findAt_eq_none]
      · rfl
      · intro e2 he2 hcon
        apply hdbl e2 he2
        have hsegs2 : e2.path.segs =
            (normalize dir).segs ++ ((normalize dir).segs ++ [m]) := by
          rw [hcon, hdnorm]
        rw [hsegs2]
        exact ⟨[m], List.append_assoc _ _ _⟩
    simp [hnof]

/-- Witness for C10: relative directory backups with a stale removable
backup file directly beneath it and threshold 0; the sweep still selects
nothing. -/
theorem claim_c10_witness : mysqlSweepPlan relFs relDir "db1" 0 1000000 = [] :=
  claim_c10_mysql_path_doubling relFs relDir "db1" 0 1000000
    (by decide) (by decide) (by decide) (by decide)

/-- Claim C5: in zip_dirs, when tar fails on a target the command is retried
exactly once after a 5-second sleep; when the retry also fails the target is
skipped with a logged error, the state is untouched, and the remaining
targets are processed exactly as they would have been. -/
theorem claim_c5_tar_retry (w : ZipWorld) (a : ZipArgs) (st : ZipState)
    (d : String) (rest : List String)
    (hd : d ∈ w.existingDirs) (h1 : w.tarOk d 1 = false)
    (h2 : w.tarOk d 2 = false) :
    zipProcess w a (d :: rest) st =
      (Event.tarAttempt d :: Event.sleep 5 :: Event.tarAttempt d ::
         Event.logError ("unable to tar directory=" ++ d) ::
         (zipProcess w a rest st).1,
       (zipProcess w a rest st).2) := by
  have hz : zipTarget w a st d =
      ([Event.tarAttempt d, Event.sleep 5, Event.tarAttempt d,
        Event.logError ("unable to tar directory=" ++ d)], st, none) := by
    simp [zipTarget, hd, h1, h2]
  simp [zipProcess, hz]

/-- Witness for C5: tar fails twice on data; the run then processes the
remaining target list unchanged. -/
theorem claim_c5_witness :
    zipProcess failTarWorld plainZipArgs ["data", "other"] plainZipState =
      (Event.tarAttempt "data" :: Event.sleep 5 :: Event.tarAttempt "data" ::
         Event.logError ("unable to tar directory=" ++ "data") ::
         (zipProcess failTarWorld plainZipArgs ["other"] plainZipState).1,
       (zipProcess failTarWorld plainZipArgs ["other"] plainZipState).2) :=
  claim_c5_tar_retry failTarWorld plainZipArgs plainZipState "data" ["other"]
    (by decide) (by decide) (by decide)

/-- Claim C8: a target directory that does not exist is skipped with an
info-level (not error-level) log record in both zip_dirs and drive_backup,
the state is untouched, and the result of the run is exactly that of the
run on the remaining targets. -/
theorem claim_c8_skip_missing_dir (w : ZipWorld) (a : ZipArgs) (st : ZipState)
    (d : String) (rest : List String)
    (wd : DriveWorld) (std : DriveState) (restd : List String)
    (hz : d ∉ w.existingDirs) (hd : d ∉ wd.existingDirs) :
    zipProcess w a (d :: rest) st =
      (Event.logInfo (skipMsg d) :: (zipProcess w a rest st).1,
       (zipProcess w a rest st).2) ∧
    driveLoop wd (d :: restd) std =
      (Event.logInfo (skipMsg d) :: (driveLoop wd restd std).1,
       (driveLoop wd restd std).2) := by
  constructor
  · have ht : zipTarget w a st d = ([Event.logInfo (skipMsg d)], st, none) := by
      simp [zipTarget, hz]
    simp [zipProcess, ht]
  · have ht : driveTarget wd std d = ([Event.logInfo (skipMsg d)], std) := by
      simp [driveTarget, hd]
    simp [driveLoop, ht]

/-- Witness for C8: the directory gone is absent in both tools. -/
theorem claim_c8_witness :
    zipProcess missWorld plainZipArgs ["gone", "here"] plainZipState =
      (Event.logInfo (skipMsg "gone") ::
         (zipProcess missWorld plainZipArgs ["here"] plainZipState).1,
       (zipProcess missWorld plainZipArgs ["here"] plainZipState).2) ∧
    driveLoop missDriveWorld ["gone", "here"] emptyDriveState =
      (Event.logInfo (skipMsg "gone") ::
         (driveLoop missDriveWorld ["here"] emptyDriveState).1,
       (driveLoop missDriveWorld ["here"] emptyDriveState).2) :=
  claim_c8_skip_missing_dir missWorld plainZipArgs plainZipState "gone" ["here"]
    missDriveWorld emptyDriveState ["here"] (by decide) (by decide)

/-- Claim C7: when the secrets file does not exist, all three tools log the
failure and return the configuration-error code -1 before touching any
target: the whole trace is that single error record, so no backup or
deletion action is taken. -/
theorem claim_c7_missing_secretfile (mw : MysqlWorld) (ma : MysqlArgs)
    (fs0 : List FSFile) (zw : ZipWorld) (za : ZipArgs) (zst : ZipState)
    (dw : DriveWorld) (da : DriveArgs) (dst : DriveState)
    (hm : ma.secret = none) (hz : za.secret = none) (hd : da.secret = none) :
    mysqlRun mw ma fs0 = ([Event.logError secretMsg], -1) ∧
    zipRun zw za zst = ([Event.logError secretMsg], -1) ∧
    driveRun dw da dst = ([Event.logError secretMsg], -1, dst.store) := by
  refine ⟨?_, ?_, ?_⟩
  · simp [mysqlRun, hm]
  · simp [zipRun, hz]
  · simp [driveRun, hd]

/-- Witness for C7 at concrete arguments with secret := none. -/
theorem claim_c7_witness :
    mysqlRun anyMysqlWorld noSecretMysqlArgs [] = ([Event.logError secretMsg], -1) ∧
    zipRun missWorld noSecretZipArgs plainZipState = ([Event.logError secretMsg], -1) ∧
    driveRun missDriveWorld noSecretDriveArgs emptyDriveState =
      ([Event.logError secretMsg], -1, emptyDriveState.store) :=
  claim_c7_missing_secretfile anyMysqlWorld noSecretMysqlArgs [] missWorld
    noSecretZipArgs plainZipState missDriveWorld noSecretDriveArgs emptyDriveState
    rfl rfl rfl

/-- Claim C9: in any non-testlog drive_backup run in which no SMTP handler
was created (empty admin email, or some EMAIL_* secret missing), the
post-loop use of the unbound smtpHandler variable raises NameError and the
process exits with code 2, even though the whole target loop was executed
(the trace is exactly the preamble followed by the loop trace). -/
theorem claim_c9_unbound_smtphandler (w : DriveWorld) (a : DriveArgs)
    (st0 : DriveState) (s : Secrets)
    (hs : a.secret = some s) (ht : a.testlog = false)
    (hc : a.adminemail = "" ∨ emailKeysPresent s = false) :
    (driveRun w a st0).2.1 = 2 ∧
    (driveRun w a st0).1 =
      emailPreEvents s a.adminemail true ++ (driveLoop w a.directories st0).1 := by
  have hflag : (emailKeysPresent s && (a.adminemail != "")) = false := by
    rcases hc with h | h
    · simp [h]
    · simp [h]
  constructor
  · simp [driveRun, hs, ht, hflag]
  · simp [driveRun, hs, ht, hflag]

/-- Witness for C9: all EMAIL_* keys present but no admin email; every
upload succeeds and the run still exits 2. -/
theorem claim_c9_witness :
    (driveRun noHostWorld noAdminArgs emptyDriveState).2.1 = 2 ∧
    (driveRun noHostWorld noAdminArgs emptyDriveState).1 =
      emailPreEvents fullSecrets noAdminArgs.adminemail true ++
        (driveLoop noHostWorld noAdminArgs.directories emptyDriveState).1 :=
  claim_c9_unbound_smtphandler noHostWorld noAdminArgs emptyDriveState
    fullSecrets rfl rfl (Or.inl rfl)

/-- Claim C3 (failing input): drive_backup with a secrets file missing
EMAIL_HOST, an admin email supplied, and one existing target.  Email
alerting is disabled and the backup is still performed (the upload appears
in the trace), but the run then hits the unbound smtpHandler and exits 2
instead of completing with its normal success result 0. -/
theorem claim_c3_bug_evaluation :
    (driveRun noHostWorld noHostArgs emptyDriveState).2.1 = 2 ∧
    Event.uploadRemote "/tmp/data.0.gz" ∈
      (driveRun noHostWorld noHostArgs emptyDriveState).1 := by
  decide

/-- Claim C4 (counterexample): a mysql_backup run in which the retention
sweep hits a file os.remove cannot delete.  The OSError propagates: the run
exits 2 and the second database is never dumped, refuting that a deletion
failure never aborts the run. -/
theorem claim_c4_counterexample :
    (mysqlRun stuckWorld stuckArgs stuckFs).2 = 2 ∧
    Event.mysqldump "db1" ∈ (mysqlRun stuckWorld stuckArgs stuckFs).1 ∧
    Event.mysqldump "db2" ∉ (mysqlRun stuckWorld stuckArgs stuckFs).1 := by
  decide

/-- Claim C4 (amended): in zip_dirs a local deletion failure is logged as
an error, that file is skipped (it lands in the failed list while every
removable candidate is still deleted), and the run continues (the target
loop never returns an early exit code when the Current directory is in
order, whatever deletions fail).  In drive_backup a failed remote deletion
is skipped — the file stays in the store, no deletion record is produced —
and the run continues, but in the default non-verbose run the failure is
not logged: the logger.error of delete_file sits under the verbose flag.
In mysql_backup an early exit code from a target, such as the one raised
by the unguarded os.remove of a failed deletion, aborts the run with that
code and the remaining databases are not processed. -/
theorem claim_c4_amended (zw : ZipWorld) (za : ZipArgs) (zst : ZipState)
    (zd : String)
    (sfs : List FSFile) (sdir : Path) (spre : String) (sk snow : Int)
    (p q : Path)
    (wd : DriveWorld) (std : DriveState) (dd : String) (f : RFile)
    (mw : MysqlWorld) (ma : MysqlArgs) (ms : Secrets)
    (mfs : List FSFile) (md : String) (mrest : List String) (c : Int)
    (hcur1 : zst.curExists = true) (hcur2 : zst.curIsDir = true)
    (hp : p ∈ sweepCandidates sfs sdir spre sk snow)
    (hpr : removableOf sfs p = false)
    (hq : q ∈ sweepCandidates sfs sdir spre sk snow)
    (hqr : removableOf sfs q = true)
    (hfm : f ∈ std.store) (hfd : wd.deleteOk f.id = false)
    (hab : (mysqlTarget mw ma ms mfs md).2.2 = some c) :
    (zipTarget zw za zst zd).2.2 = none ∧
    Event.logError ("Unable to remove file " ++ pathStr p) ∈
      zipSweepEvents sfs sdir spre sk snow ∧
    p ∈ (zipSweep sfs sdir spre sk snow).failed ∧
    q ∈ (zipSweep sfs sdir spre sk snow).deleted ∧
    f ∈ (driveTarget wd std dd).2.store ∧
    Event.deleteRemote f.id ∉ (driveTarget wd std dd).1 ∧
    mysqlProcess mw ma ms (md :: mrest) mfs = ((mysqlTarget mw ma ms mfs md).1, c) := by
  refine ⟨?_, ?_, ?_, ?_, ?_, ?_, ?_⟩
  · have hafter : ∀ tarEv, (zipAfterTar zw za zst zd tarEv).2.2 = none := by
      intro tarEv
      by_cases hl : zw.linkOk = true
      · simp [zipAfterTar, hcur1, hcur2, hl]
      · simp [zipAfterTar, hcur1, hcur2, hl]
    by_cases hex : zd ∈ zw.existingDirs
    · by_cases h1 : zw.tarOk zd 1 = true
      · simp only [zipTarget, if_pos hex, h1, if_true]
        exact hafter _
      · by_cases h2 : zw.tarOk zd 2 = true
        · simp only [zipTarget, if_pos hex, h1, h2, if_true, if_false,
            Bool.false_eq_true]
          exact hafter _
        · simp [zipTarget, hex, h1, h2]
    · simp [zipTarget, hex]
  · unfold zipSweepEvents
    exact List.mem_map.mpr ⟨p, hp, by simp [hpr]⟩
  · simp [zipSweep, List.mem_filter, hp, hpr]
  · simp [zipSweep, List.mem_filter, hq, hqr]
  · by_cases hex : dd ∈ wd.existingDirs
    · by_cases htar : wd.tarOk dd = true
      · simp only [driveTarget, if_pos hex, htar, if_true]
        apply List.mem_filter.mpr
        constructor
        · by_cases hup : wd.uploadOk ("/tmp/" ++ sanitize dd ++ "." ++
              timeStr std.tick ++ ".gz") = true
          · simp only [hup, if_true]
            exact List.mem_append_left _ hfm
          · simp only [hup, if_false, Bool.false_eq_true]
            exact hfm
        · simp [hfd]
      · simp only [driveTarget, if_pos hex, htar, if_false, Bool.false_eq_true]
        exact hfm
    · simp only [driveTarget, if_neg hex]
      exact hfm
  · by_cases hex : dd ∈ wd.existingDirs
    · by_cases htar : wd.tarOk dd = true
      · simp only [driveTarget, if_pos hex, htar, if_true]
        intro hmem
        rcases List.mem_cons.mp hmem with h | h
        · exact Event.noConfusion h
        · rcases List.mem_append.mp h with h | h
          · split at h <;> simp at h
          · rcases List.mem_map.mp h with ⟨g, hg, hge⟩
            injection hge with hid
            have hgok : wd.deleteOk g.id = true := (List.mem_filter.mp hg).2
            rw [hid] at hgok
            rw [hfd] at hgok
            exact Bool.noConfusion hgok
      · simp only [driveTarget, if_pos hex, htar, if_false, Bool.false_eq_true]
        simp
    · simp [driveTarget, hex]
  · simp only [mysqlProcess]
    rw [hab]

/-- Witness for the amended C4: a sweep over /b holding one stuck and one
removable stale file; a zip target with the Current directory in order; a
remote store entry whose deletion fails while the target is processed; and
the aborting mysql run of the counterexample input. -/
theorem claim_c4_witness :
    (zipTarget missWorld plainZipArgs plainZipState "here").2.2 = none ∧
    Event.logError ("Unable to remove file " ++ pathStr mixBad) ∈
      zipSweepEvents mixFs dayDir "db" 0 1000000 ∧
    mixBad ∈ (zipSweep mixFs dayDir "db" 0 1000000).failed ∧
    mixGood ∈ (zipSweep mixFs dayDir "db" 0 1000000).deleted ∧
    stuckRemote ∈ (driveTarget stuckRemoteWorld stuckRemoteState "data").2.store ∧
    Event.deleteRemote stuckRemote.id ∉
      (driveTarget stuckRemoteWorld stuckRemoteState "data").1 ∧
    mysqlProcess stuckWorld stuckArgs stuckSecrets ["db1", "db2"] stuckFs =
      ((mysqlTarget stuckWorld stuckArgs stuckSecrets stuckFs "db1").1, 2) :=
  claim_c4_amended missWorld plainZipArgs plainZipState "here"
    mixFs dayDir "db" 0 1000000 mixBad mixGood
    stuckRemoteWorld stuckRemoteState "data" stuckRemote
    stuckWorld stuckArgs stuckSecrets stuckFs "db1" ["db2"] 2
    rfl rfl (by decide) (by decide) (by decide) (by decide) (by decide)
    (by decide) (by decide)

/-- Claim C2 (counterexample): targets a/b and a in one run.  The archive of
a/b uploads as /tmp/a_b.0.gz; while processing target a the old-file query
(name contains /tmp/a, modified before that target's timestamp) matches it,
so the file uploaded earlier in the same run is deleted: it is gone from
the final store even though every upload succeeded. -/
theorem claim_c2_counterexample :
    Event.uploadRemote "/tmp/a_b.0.gz" ∈
      (driveRun overlapWorld overlapArgs emptyDriveState).1 ∧
    Event.deleteRemote 0 ∈ (driveRun overlapWorld overlapArgs emptyDriveState).1 ∧
    ((driveRun overlapWorld overlapArgs emptyDriveState).2.2.map RFile.id).contains 0
      = false := by
  decide

/-- Claim C2 (amended): for a target whose directory exists and whose tar
and upload succeed, and when every remote deletion succeeds, the iteration
leaves the store holding exactly the previous files whose name does not
contain /tmp/ ++ sanitized-prefix or whose modification time is not before
this iteration's timestamp, plus the single file uploaded for this target
(which, carrying this iteration's timestamp, survives this iteration but
may be deleted by a later target whose query string its name contains). -/
theorem claim_c2_amended (w : DriveWorld) (st : DriveState) (d : String)
    (hd : d ∈ w.existingDirs) (htar : w.tarOk d = true)
    (hup : w.uploadOk ("/tmp/" ++ sanitize d ++ "." ++ timeStr st.tick ++ ".gz")
      = true)
    (hdel : ∀ f ∈ st.store, w.deleteOk f.id = true) :
    (driveTarget w st d).2.store =
      st.store.filter (fun f =>
        ! driveQueryMatches ("/tmp/" ++ sanitize d) st.tick f) ++
      [{ id := st.nextId,
         name := "/tmp/" ++ sanitize d ++ "." ++ timeStr st.tick ++ ".gz",
         mtime := st.tick }] ∧
    Event.uploadRemote ("/tmp/" ++ sanitize d ++ "." ++ timeStr st.tick ++ ".gz") ∈
      (driveTarget w st d).1 := by
  constructor
  · simp only [driveTarget, if_pos hd, htar, if_true, hup]
    rw [List.filter_append]
    congr 1
    · apply List.filter_congr
      intro f hf
      simp [hdel f hf]
    · simp [driveQueryMatches]
  · simp only [driveTarget, if_pos hd, htar, if_true, hup]
    simp [List.mem_cons, List.mem_append]

/-- Witness for the amended C2: one existing target data over a store
holding a single stale matching file. -/
theorem claim_c2_witness :
    (driveTarget noHostWorld
        { store := [{ id := 3, name := "/tmp/data.x.gz", mtime := -10 }],
          nextId := 4, tick := 0 } "data").2.store =
      ({ store := [{ id := 3, name := "/tmp/data.x.gz", mtime := -10 }],
         nextId := 4, tick := 0 } : DriveState).store.filter (fun f =>
        ! driveQueryMatches ("/tmp/" ++ sanitize "data") 0 f) ++
      [{ id := 4, name := "/tmp/" ++ sanitize "data" ++ "." ++ timeStr 0 ++ ".gz",
         mtime := 0 }] ∧
    Event.uploadRemote ("/tmp/" ++ sanitize "data" ++ "." ++ timeStr 0 ++ ".gz") ∈
      (driveTarget noHostWorld
        { store := [{ id := 3, name := "/tmp/data.x.gz", mtime := -10 }],
          nextId := 4, tick := 0 } "data").1 :=
  claim_c2_amended noHostWorld
    { store := [{ id := 3, name := "/tmp/data.x.gz", mtime := -10 }],
      nextId := 4, tick := 0 } "data" (by decide) (by decide) (by decide)
    (by decide)

end DBBackup
